import Mathlib

/-
  Verification development for the POSIX backend of ruby-serialport
  (ext/native/posix_serialport_impl.c).

  The C code is shallowly embedded as pure Lean functions over an explicit
  device/session state.  Machine integers are modelled as Nat/Int with
  explicit masking where the C code truncates (tcflag_t is a 32-bit
  unsigned quantity, cc_t is an unsigned char).  Raising a Ruby exception
  is modelled as an error value carrying the state at the moment of the
  raise; syscalls whose failure paths the C code does not inspect further
  (tcgetattr / tcsetattr / the TIOC*SERIAL and IOSSIOSPEED ioctls on their
  success paths) are assumed to succeed, except where a claim is about a
  failure path (TIOCGSERIAL in get_custom_baud_rate, which is modelled by
  an Option input).
-/

namespace SerialPort

/-! ## Platform constants

The numeric flag values are the glibc/Linux `<termios.h>` values; the code
under verification manipulates them only through the masks below. -/

def CSIZE : Nat := 48
def CS5 : Nat := 0
def CS6 : Nat := 16
def CS7 : Nat := 32
def CS8 : Nat := 48
def CSTOPB : Nat := 64
def PARENB : Nat := 256
def PARODD : Nat := 512
def CRTSCTS : Nat := 2147483648
def IXON : Nat := 1024
def IXOFF : Nat := 4096
def IXANY : Nat := 2048

/-- `<linux/serial.h>`: ASYNC_SPD_CUST = ASYNC_SPD_HI|ASYNC_SPD_VHI. -/
def ASYNC_SPD_CUST : Nat := 48

/-- `<linux/serial.h>`: mask of all speed-selection flag bits. -/
def ASYNC_SPD_MASK : Nat := 4144

/-- Modelled from the spec: the constants of `serialport.h`, which is not
among the sources.  Spec section 3 gives flow_control as the bitmask
\{NONE=0, SOFT=1, HARD=2\} and parity as \{NONE, ODD, EVEN\} with EVEN=1. -/
def NONE : Int := 0

/-- Modelled from the spec: software flow-control bit. -/
def SOFT : Int := 1

/-- Modelled from the spec: hardware flow-control bit. -/
def HARD : Int := 2

/-- Modelled from the spec: even-parity selector. -/
def EVEN : Int := 1

/-- Modelled from the spec: odd-parity selector. -/
def ODD : Int := 2

/-- All ones in a 32-bit tcflag_t. -/
def UINT32MAX : Nat := 4294967295

/-- `x &= ~m` on a 32-bit flag word (every mask used below is < 2^32 with
its bits inside `UINT32MAX`, so subtraction is bitwise complement). -/
def bclr (x m : Nat) : Nat := x &&& (UINT32MAX - m)

/-! ## Speeds

POSIX speed constants are opaque distinct tokens; `cfsetispeed`,
`cfsetospeed`, `cfgetospeed` move them in and out of the termios. -/

inductive Speed
  | b50 | b75 | b110 | b134 | b150 | b200 | b300 | b600
  | b1200 | b1800 | b2400 | b4800 | b9600 | b19200 | b38400
  | b57600 | b76800 | b115200 | b230400
deriving DecidableEq, Repr

inductive OSKind
  | linux
  | darwin
  | other
deriving DecidableEq, Repr

/-- Compile-time configuration of the translation unit: the OS selector
macros and which optional speed constants / CRTSCTS the platform headers
define (`HAVE_FLOWCONTROL_HARD` is defined exactly when CRTSCTS is). -/
structure Build where
  os : OSKind
  hasHardFlow : Bool
  hasB57600 : Bool
  hasB76800 : Bool
  hasB115200 : Bool
  hasB230400 : Bool
deriving DecidableEq, Repr

/-! ## States -/

/-- The kernel-held termios of the descriptor (fields the code touches). -/
structure Termios where
  c_iflag : Nat
  c_cflag : Nat
  ispeed : Speed
  ospeed : Speed
  vtime : Nat
  vmin : Nat
deriving DecidableEq, Repr

/-- Fields of the Linux `struct serial_struct` used by the custom-baud
side channel (read and written through TIOCGSERIAL / TIOCSSERIAL). -/
structure SerialStruct where
  flags : Nat
  custom_divisor : Int
  baud_base : Int
deriving DecidableEq, Repr

/-- Kernel-visible state of the descriptor plus the session state the code
keeps: the Darwin speed last applied through IOSSIOSPEED and the Ruby
instance variable `custom_baud` (none = never set, i.e. not a Fixnum). -/
structure DeviceState where
  tio : Termios
  serial : SerialStruct
  iossSpeed : Int
  customBaudIV : Option Int
deriving DecidableEq, Repr

inductive SPError
  | argError (msg : String)
  | ioError (msg : String)
deriving DecidableEq, Repr

/-- Result of a stateful entry point: the raised error, if any, together
with the kernel/session state when the call returned or raised. -/
structure SPOutcome where
  err : Option SPError
  st : DeviceState
deriving DecidableEq, Repr

/-! ## sp_create_impl: integer port selector -/

/-- The Linux/Cygwin entry of the platform port-name table (8 entries). -/
def ports : List String :=
  ["/dev/ttyS0", "/dev/ttyS1", "/dev/ttyS2", "/dev/ttyS3",
   "/dev/ttyS4", "/dev/ttyS5", "/dev/ttyS6", "/dev/ttyS7"]

/-- The T_FIXNUM branch of `sp_create_impl`: the bounds check
`num_port < 0 || num_port > sizeof(ports)/sizeof(ports[0])` followed by
the table access `ports[num_port]`.  A `.ok none` result models an
out-of-bounds read of the table. -/
def sp_create_select_port (num_port : Int) : Except SPError (Option String) :=
  if num_port < 0 ∨ num_port > (ports.length : Int) then
    .error (.argError "illegal port number")
  else
    .ok (ports.get? num_port.toNat)

/-! ## Custom-baud strategy -/

/-- Linux `get_custom_baud_rate`: the TIOCGSERIAL result is `none` when
the ioctl fails.  Never raises. -/
def get_custom_baud_rate (si? : Option SerialStruct) : Int :=
  match si? with
  | none => 0
  | some si =>
    if si.flags &&& ASYNC_SPD_CUST = 0 then 0
    else if si.custom_divisor > 0 then si.baud_base / si.custom_divisor
    else 0

/-- Linux `clear_custom_baud_rate` (TIOCGSERIAL / TIOCSSERIAL assumed to
succeed); when flag and divisor are already clear it returns without a
kernel write, which is state-identical here. -/
def clear_custom_baud_rate_linux (si : SerialStruct) : SerialStruct :=
  if si.flags &&& ASYNC_SPD_CUST = 0 ∧ si.custom_divisor = 0 then si
  else { si with flags := bclr si.flags ASYNC_SPD_CUST, custom_divisor := 0 }

/-- Linux `set_custom_baud_rate`; the two argument checks raise, the
ioctls are assumed to succeed. -/
def set_custom_baud_rate_linux (si : SerialStruct) (baud : Int) :
    Except SPError SerialStruct :=
  if baud ≤ 0 then .error (.argError "invalid baud rate")
  else if baud > si.baud_base then .error (.argError "custom baud rate is too high")
  else
    .ok { si with
          flags := (bclr si.flags ASYNC_SPD_MASK) ||| ASYNC_SPD_CUST,
          custom_divisor := si.baud_base / baud }

/-- Darwin `get_custom_baud_rate`: reads the `custom_baud` instance
variable, 0 when it is not a Fixnum. -/
def get_custom_baud_rate_darwin (st : DeviceState) : Int :=
  match st.customBaudIV with
  | some b => b
  | none => 0

/-- Darwin `set_custom_baud_rate`: IOSSIOSPEED (assumed to succeed) plus
caching the value in the instance variable. -/
def set_custom_baud_rate_darwin (st : DeviceState) (baud : Int) : DeviceState :=
  { st with iossSpeed := baud, customBaudIV := some baud }

/-! ## sp_set_modem_params_impl -/

/-- The six optional values looked up in the hash-argument form. -/
structure HashParams where
  baud : Option Int
  dataBits : Option Int
  stopBits : Option Int
  parity : Option Int
  flowControl : Option Int
  readTimeout : Option Int
deriving DecidableEq, Repr

/-- The argument vector: either a single hash, or `argc` positional
arguments each of which is nil or a Fixnum. -/
inductive SPArgs
  | hashArg (h : HashParams)
  | positional (a : List (Option Int))
deriving DecidableEq, Repr

/-- The `_data_rate` value in effect after argument extraction. -/
def eff_rate (args : SPArgs) : Option Int :=
  match args with
  | .hashArg h => h.baud
  | .positional a => a.headD none

/-- The `_data_bits` value in effect: hash lookup, or
`argc >= 2 ? argv[1] : INT2FIX(8)`. -/
def eff_data_bits (args : SPArgs) : Option Int :=
  match args with
  | .hashArg h => h.dataBits
  | .positional a => if a.length ≥ 2 then a.getD 1 none else some 8

/-- The `_stop_bits` value in effect: hash lookup, or
`argc >= 3 ? argv[2] : INT2FIX(1)`. -/
def eff_stop_bits (args : SPArgs) : Option Int :=
  match args with
  | .hashArg h => h.stopBits
  | .positional a => if a.length ≥ 3 then a.getD 2 none else some 1

/-- The explicitly supplied parity slot (no positional defaulting):
used to state claims about calls that do not supply a parity. -/
def eff_parity_slot (args : SPArgs) : Option Int :=
  match args with
  | .hashArg h => h.parity
  | .positional a => if a.length ≥ 4 then a.getD 3 none else none

/-- The `_parity` value in effect at the SetParity label: hash lookup, or
`argc >= 4 ? argv[3] : ((params.c_cflag & CSIZE) == CS8 ? NONE : EVEN)`;
the default reads the in-memory termios as updated so far. -/
def eff_parity (args : SPArgs) (params : Termios) : Option Int :=
  match args with
  | .hashArg h => h.parity
  | .positional a =>
    if a.length ≥ 4 then a.getD 3 none
    else some (if params.c_cflag &&& CSIZE = CS8 then NONE else EVEN)

/-- The `_flow_control` value in effect: hash lookup, or
`argc >= 5 ? argv[4] : Qnil`. -/
def eff_flow (args : SPArgs) : Option Int :=
  match args with
  | .hashArg h => h.flowControl
  | .positional a => if a.length ≥ 5 then a.getD 4 none else none

/-- The `_read_timeout` value in effect: hash lookup, or
`argc >= 6 ? argv[5] : Qnil`. -/
def eff_read_timeout (args : SPArgs) : Option Int :=
  match args with
  | .hashArg h => h.readTimeout
  | .positional a => if a.length ≥ 6 then a.getD 5 none else none

/-- Mapping of a supported standard rate to its speed constant; `none`
routes to the switch's default branch. -/
def standard_speed (b : Build) (r : Int) : Option Speed :=
  if r = 50 then some .b50
  else if r = 75 then some .b75
  else if r = 110 then some .b110
  else if r = 134 then some .b134
  else if r = 150 then some .b150
  else if r = 200 then some .b200
  else if r = 300 then some .b300
  else if r = 600 then some .b600
  else if r = 1200 then some .b1200
  else if r = 1800 then some .b1800
  else if r = 2400 then some .b2400
  else if r = 4800 then some .b4800
  else if r = 9600 then some .b9600
  else if r = 19200 then some .b19200
  else if r = 38400 then some .b38400
  else if r = 57600 ∧ b.hasB57600 then some .b57600
  else if r = 76800 ∧ b.hasB76800 then some .b76800
  else if r = 115200 ∧ b.hasB115200 then some .b115200
  else if r = 230400 ∧ b.hasB230400 then some .b230400
  else none

/-- The data-rate section of `sp_set_modem_params_impl`: validation and
switch, then (Linux) `clear_custom_baud_rate(fd)`, then cfsetispeed /
cfsetospeed on the in-memory copy.  Returns the updated copy, the pending
custom rate for post-commit handling, and the device state (the Linux
clear is a kernel write). -/
def rate_step (b : Build) (dataRate : Option Int) (customBaud0 : Int)
    (params : Termios) (st1 : DeviceState) :
    Except SPError (Termios × Int × DeviceState) :=
  match dataRate with
  | none => .ok (params, customBaud0, st1)
  | some r =>
    if r ≤ 0 then .error (.argError "invalid baud rate")
    else
      match standard_speed b r with
      | some spd =>
        let st2 := if b.os = .linux then
          { st1 with serial := clear_custom_baud_rate_linux st1.serial } else st1
        .ok ({ params with ispeed := spd, ospeed := spd }, customBaud0, st2)
      | none =>
        if b.os = .linux ∨ b.os = .darwin then
          if r > 24000000 then .error (.argError "baud rate too high")
          else
            let st2 := if b.os = .linux then
              { st1 with serial := clear_custom_baud_rate_linux st1.serial } else st1
            .ok ({ params with ispeed := .b38400, ospeed := .b38400 }, r, st2)
        else .error (.argError "unknown baud rate")

/-- SetDataBits section: validation switch, then
`c_cflag &= ~CSIZE; c_cflag |= data_bits`. -/
def apply_data_bits (v : Option Int) (params : Termios) : Except SPError Termios :=
  match v with
  | none => .ok params
  | some d =>
    if d = 5 then .ok { params with c_cflag := (bclr params.c_cflag CSIZE) ||| CS5 }
    else if d = 6 then .ok { params with c_cflag := (bclr params.c_cflag CSIZE) ||| CS6 }
    else if d = 7 then .ok { params with c_cflag := (bclr params.c_cflag CSIZE) ||| CS7 }
    else if d = 8 then .ok { params with c_cflag := (bclr params.c_cflag CSIZE) ||| CS8 }
    else .error (.argError "unknown character size")

/-- SetStopBits section. -/
def apply_stop_bits (v : Option Int) (params : Termios) : Except SPError Termios :=
  match v with
  | none => .ok params
  | some s =>
    if s = 1 then .ok { params with c_cflag := bclr params.c_cflag CSTOPB }
    else if s = 2 then .ok { params with c_cflag := params.c_cflag ||| CSTOPB }
    else .error (.argError "unknown number of stop bits")

/-- SetParity section. -/
def apply_parity (v : Option Int) (params : Termios) : Except SPError Termios :=
  match v with
  | none => .ok params
  | some p =>
    if p = EVEN then .ok { params with c_cflag := bclr (params.c_cflag ||| PARENB) PARODD }
    else if p = ODD then .ok { params with c_cflag := params.c_cflag ||| PARENB ||| PARODD }
    else if p = NONE then .ok { params with c_cflag := bclr params.c_cflag PARENB }
    else .error (.argError "unknown parity")

/-- SetFlowControl section; mirrors the `#ifdef HAVE_FLOWCONTROL_HARD`
structure: without CRTSCTS, a HARD bit raises and a clear HARD bit leaves
CRTSCTS untouched (the compiled code has no else-branch there). -/
def apply_flow_control (b : Build) (v : Option Int) (params : Termios) :
    Except SPError Termios :=
  match v with
  | none => .ok params
  | some f =>
    if f ≠ NONE ∧ f ≠ SOFT ∧ f ≠ HARD ∧ f ≠ Int.lor HARD SOFT then
      .error (.argError "invalid flow control")
    else if ¬ b.hasHardFlow ∧ Int.land f HARD ≠ 0 then
      .error (.ioError "Hardware flow control not supported")
    else
      let p2 : Termios :=
        if b.hasHardFlow then
          (if Int.land f HARD ≠ 0 then
             { params with c_cflag := params.c_cflag ||| CRTSCTS }
           else { params with c_cflag := bclr params.c_cflag CRTSCTS })
        else params
      .ok (if Int.land f SOFT ≠ 0 then
             { p2 with c_iflag := p2.c_iflag ||| (IXON ||| IXOFF ||| IXANY) }
           else { p2 with c_iflag := bclr p2.c_iflag (IXON ||| IXOFF ||| IXANY) })

/-- SetReadTimeout section (VTIME is a cc_t, an unsigned char, so the
stored quotient is reduced mod 256). -/
def apply_read_timeout (v : Option Int) (params : Termios) : Except SPError Termios :=
  match v with
  | none => .ok params
  | some t =>
    if t < 0 then .ok { params with vtime := 0, vmin := 0 }
    else if t = 0 then .ok { params with vtime := 0, vmin := 1 }
    else .ok { params with vtime := ((t + 50) / 100).toNat % 256, vmin := 0 }

/-- The SetDataBits .. SetReadTimeout fall-through sequence on the
in-memory copy; every raise in it leaves the kernel untouched. -/
def apply_phases (b : Build) (args : SPArgs) (params1 : Termios) :
    Except SPError Termios :=
  match apply_data_bits (eff_data_bits args) params1 with
  | .error e => .error e
  | .ok params2 =>
    match apply_stop_bits (eff_stop_bits args) params2 with
    | .error e => .error e
    | .ok params3 =>
      match apply_parity (eff_parity args params3) params3 with
      | .error e => .error e
      | .ok params4 =>
        match apply_flow_control b (eff_flow args) params4 with
        | .error e => .error e
        | .ok params5 => apply_read_timeout (eff_read_timeout args) params5

/-- The code after the tcsetattr commit: the platform-specific
post-commit custom-baud application on the committed state `st3`. -/
def spm_commit (b : Build) (customBaud : Int) (st3 : DeviceState) : SPOutcome :=
  if b.os = .darwin then
    if customBaud ≠ 0 then ⟨none, set_custom_baud_rate_darwin st3 customBaud⟩
    else ⟨none, st3⟩
  else if b.os = .linux then
    if customBaud ≠ 0 then
      match set_custom_baud_rate_linux st3.serial customBaud with
      | .error e => ⟨some e, st3⟩
      | .ok si => ⟨none, { st3 with serial := si }⟩
    else ⟨none, st3⟩
  else ⟨none, st3⟩

/-- The body of `sp_set_modem_params_impl` after argument extraction and
the Darwin pre-step: `customBaud0` is the captured cached custom rate,
`params` the in-memory tcgetattr copy (with the Darwin B9600 reset
already applied), `st1` the device/session state at that point. -/
def spm_core (b : Build) (args : SPArgs) (customBaud0 : Int)
    (params : Termios) (st1 : DeviceState) : SPOutcome :=
  match rate_step b (eff_rate args) customBaud0 params st1 with
  | .error e => ⟨some e, st1⟩
  | .ok (params1, customBaud, st2) =>
    match apply_phases b args params1 with
    | .error e => ⟨some e, st2⟩
    | .ok params6 => spm_commit b customBaud { st2 with tio := params6 }

/-- `sp_set_modem_params_impl`.  tcgetattr and tcsetattr are assumed to
succeed; each error exit carries the kernel/session state at the moment
of the raise.  On Darwin the cached custom rate is captured and then
cleared (and the copy's speed reset to B9600) before anything else. -/
def sp_set_modem_params (b : Build) (args : SPArgs) (st0 : DeviceState) : SPOutcome :=
  match args with
  | .positional [] => ⟨none, st0⟩
  | _ =>
    spm_core b args
      (if b.os = .darwin then get_custom_baud_rate_darwin st0 else 0)
      (if b.os = .darwin then { st0.tio with ispeed := .b9600, ospeed := .b9600 }
       else st0.tio)
      (if b.os = .darwin then { st0 with customBaudIV := some 0 } else st0)

/-! ## get_modem_params_impl -/

/-- Reverse mapping of a speed constant; `none` routes to the switch's
default branch (a case compiled out by an undefined Bxxx also does). -/
def decode_speed (b : Build) (s : Speed) : Option Int :=
  match s with
  | .b50 => some 50
  | .b75 => some 75
  | .b110 => some 110
  | .b134 => some 134
  | .b150 => some 150
  | .b200 => some 200
  | .b300 => some 300
  | .b600 => some 600
  | .b1200 => some 1200
  | .b1800 => some 1800
  | .b2400 => some 2400
  | .b4800 => some 4800
  | .b9600 => some 9600
  | .b19200 => some 19200
  | .b38400 => some 38400
  | .b57600 => if b.hasB57600 then some 57600 else none
  | .b76800 => if b.hasB76800 then some 76800 else none
  | .b115200 => if b.hasB115200 then some 115200 else none
  | .b230400 => if b.hasB230400 then some 230400 else none

/-- The `switch(params.c_cflag & CSIZE)` of `get_modem_params_impl`,
as a function of the switch scrutinee. -/
def decode_data_bits (masked : Nat) : Nat :=
  if masked = CS5 then 5
  else if masked = CS6 then 6
  else if masked = CS7 then 7
  else if masked = CS8 then 8
  else 0

structure ModemParams where
  data_rate : Int
  data_bits : Nat
  stop_bits : Nat
  parity : Int
  flow_control : Int
  read_timeout : Int
deriving DecidableEq, Repr

/-- `get_modem_params_impl` (tcgetattr assumed to succeed).  `gserialOk`
says whether the TIOCGSERIAL ioctl inside the Linux custom-baud getter
succeeds.  On a build that is neither Linux nor Darwin the speed switch
has no default case and leaves the field uninitialized; 0 stands in for
that value here. -/
def get_modem_params (b : Build) (gserialOk : Bool) (st : DeviceState) : ModemParams :=
  let params := st.tio
  { data_rate :=
      match decode_speed b params.ospeed with
      | some r => r
      | none =>
        match b.os with
        | .linux => get_custom_baud_rate (if gserialOk then some st.serial else none)
        | .darwin => get_custom_baud_rate_darwin st
        | .other => 0
    data_bits := decode_data_bits (params.c_cflag &&& CSIZE)
    stop_bits := if params.c_cflag &&& CSTOPB ≠ 0 then 2 else 1
    parity :=
      if params.c_cflag &&& PARENB = 0 then NONE
      else if params.c_cflag &&& PARODD ≠ 0 then ODD
      else EVEN
    flow_control :=
      (if b.hasHardFlow ∧ params.c_cflag &&& CRTSCTS ≠ 0 then HARD else 0) +
      (if params.c_iflag &&& (IXON ||| IXOFF ||| IXANY) ≠ 0 then SOFT else 0)
    read_timeout :=
      if params.vtime = 0 ∧ params.vmin = 0 then -1
      else (params.vtime : Int) * 100 }

/-! ## sp_set_flow_control_impl, read-timeout setter/getter -/

/-- `sp_set_flow_control_impl`: the flow-control section run standalone
against a fresh tcgetattr copy, then tcsetattr (assumed to succeed). -/
def sp_set_flow_control (b : Build) (val : Int) (st : DeviceState) : SPOutcome :=
  match apply_flow_control b (some val) st.tio with
  | .error e => ⟨some e, st⟩
  | .ok p => ⟨none, { st with tio := p }⟩

/-- `sp_set_read_timeout_impl` (tcgetattr/tcsetattr assumed to succeed). -/
def sp_set_read_timeout (t : Int) (st : DeviceState) : DeviceState :=
  let params := st.tio
  let params :=
    if t < 0 then { params with vtime := 0, vmin := 0 }
    else if t = 0 then { params with vtime := 0, vmin := 1 }
    else { params with vtime := ((t + 50) / 100).toNat % 256, vmin := 0 }
  { st with tio := params }

/-- `sp_get_read_timeout_impl`. -/
def sp_get_read_timeout (st : DeviceState) : Int :=
  if st.tio.vtime = 0 ∧ st.tio.vmin = 0 then -1
  else (st.tio.vtime : Int) * 100

/-! ## Statement-side definitions -/

/-- Whether the parity field is effectively unsupplied: a missing hash
entry, or an explicit nil in the fourth positional slot.  (With fewer
than four positional arguments the parity is defaulted, not skipped.) -/
def parity_nil (args : SPArgs) : Bool :=
  match args with
  | .hashArg h => h.parity.isNone
  | .positional a => decide (a.length ≥ 4) && (a.getD 3 none).isNone

/-- The corrected normalize of the read-timeout round trip: negative
requests read back as -1, zero as 0, and a positive request t reads back
as `(t+50)/100 % 256 * 100`, except that a zero VTIME cell (t below 50,
or a quotient that is a multiple of 256) reads back as -1. -/
def normalize_amended (t : Int) : Int :=
  if t < 0 then -1
  else if t = 0 then 0
  else if ((t + 50) / 100).toNat % 256 = 0 then -1
  else ((((t + 50) / 100).toNat % 256 : Nat) : Int) * 100

/-! ## Concrete fixtures for witnesses and counterexamples -/

/-- A Linux build (glibc defines B57600/B115200/B230400 but not B76800,
and CRTSCTS is always available). -/
def buildLinux : Build := ⟨.linux, true, true, false, true, true⟩

/-- A Darwin build (all four optional speeds and CRTSCTS available). -/
def buildDarwin : Build := ⟨.darwin, true, true, true, true, true⟩

/-- A generic POSIX build without CRTSCTS. -/
def buildNoHard : Build := ⟨.other, false, true, false, true, true⟩

/-- A termios with 7-bit characters (CS7) and everything else clear. -/
def tioCS7 : Termios := ⟨0, 32, .b9600, .b9600, 0, 0⟩

/-- serial_struct with an active custom rate: ASYNC_SPD_CUST set,
divisor 24, base clock 115200. -/
def serialCust : SerialStruct := ⟨48, 24, 115200⟩

/-- serial_struct with no custom rate configured. -/
def serialClear : SerialStruct := ⟨0, 0, 115200⟩

/-- Linux descriptor with an active kernel custom baud. -/
def dstCust : DeviceState := ⟨tioCS7, serialCust, 0, none⟩

/-- Descriptor with no custom-baud state anywhere. -/
def dstClear : DeviceState := ⟨tioCS7, serialClear, 0, none⟩

/-- Darwin descriptor whose session cache holds custom rate 12345. -/
def dstDarwinCust : DeviceState := ⟨tioCS7, serialClear, 12345, some 12345⟩

/-! ## Bit-algebra helpers -/

theorem land_lor_right (x a m : Nat) :
    (x ||| a) &&& m = (x &&& m) ||| (a &&& m) := by
  apply Nat.eq_of_testBit_eq
  intro i
  simp only [Nat.testBit_and, Nat.testBit_or]
  cases x.testBit i <;> cases a.testBit i <;> cases m.testBit i <;> rfl

theorem land_assoc3 (x k m : Nat) : (x &&& k) &&& m = x &&& (k &&& m) := by
  apply Nat.eq_of_testBit_eq
  intro i
  simp only [Nat.testBit_and]
  cases x.testBit i <;> cases k.testBit i <;> cases m.testBit i <;> rfl

/-- Setting bits disjoint from `m` does not affect the `m` field. -/
theorem set_preserves (x a m : Nat) (h : a &&& m = 0) :
    (x ||| a) &&& m = x &&& m := by
  rw [land_lor_right, h]
  simp

/-- Clearing the bits of `c` does not affect a field `m` disjoint from it. -/
theorem bclr_preserves (x c m : Nat) (h : (UINT32MAX - c) &&& m = m) :
    (bclr x c) &&& m = x &&& m := by
  unfold bclr
  rw [land_assoc3, h]

/-- Clearing the bits of `c` zeroes any field inside `c`. -/
theorem bclr_clears (x c m : Nat) (h : (UINT32MAX - c) &&& m = 0) :
    (bclr x c) &&& m = 0 := by
  unfold bclr
  rw [land_assoc3, h]
  simp

/-- Reading the field just written by a clear-then-set update. -/
theorem bclr_set_get (x c a m : Nat) (h1 : (UINT32MAX - c) &&& m = 0)
    (h2 : a &&& m = a) : ((bclr x c) ||| a) &&& m = a := by
  rw [land_lor_right, bclr_clears x c m h1, h2]
  simp

/-! ## Frame and effect lemmas for the fall-through sections -/

theorem apply_data_bits_nil (p : Termios) : apply_data_bits none p = .ok p := rfl

theorem apply_stop_bits_nil (p : Termios) : apply_stop_bits none p = .ok p := rfl

theorem apply_parity_nil (p : Termios) : apply_parity none p = .ok p := rfl

theorem apply_flow_control_nil (b : Build) (p : Termios) :
    apply_flow_control b none p = .ok p := rfl

theorem apply_read_timeout_nil (p : Termios) : apply_read_timeout none p = .ok p := rfl

/-- The SetDataBits section touches only the CSIZE field of c_cflag. -/
theorem apply_data_bits_frame (v : Option Int) (p q : Termios)
    (h : apply_data_bits v p = .ok q) :
    q.c_cflag &&& CSTOPB = p.c_cflag &&& CSTOPB ∧
    q.c_cflag &&& PARENB = p.c_cflag &&& PARENB ∧
    q.c_cflag &&& PARODD = p.c_cflag &&& PARODD ∧
    q.c_cflag &&& CRTSCTS = p.c_cflag &&& CRTSCTS ∧
    q.c_iflag = p.c_iflag ∧ q.vtime = p.vtime ∧ q.vmin = p.vmin := by
  cases v with
  | none => rw [apply_data_bits_nil] at h; cases h; exact ⟨rfl, rfl, rfl, rfl, rfl, rfl, rfl⟩
  | some d =>
    simp only [apply_data_bits] at h
    split_ifs at h
    all_goals cases h
    all_goals refine ⟨?_, ?_, ?_, ?_, rfl, rfl, rfl⟩
    all_goals
      rw [set_preserves _ _ _ (by decide), bclr_preserves _ _ _ (by decide)]

/-- The SetStopBits section touches only the CSTOPB bit of c_cflag. -/
theorem apply_stop_bits_frame (v : Option Int) (p q : Termios)
    (h : apply_stop_bits v p = .ok q) :
    q.c_cflag &&& CSIZE = p.c_cflag &&& CSIZE ∧
    q.c_cflag &&& PARENB = p.c_cflag &&& PARENB ∧
    q.c_cflag &&& PARODD = p.c_cflag &&& PARODD ∧
    q.c_cflag &&& CRTSCTS = p.c_cflag &&& CRTSCTS ∧
    q.c_iflag = p.c_iflag ∧ q.vtime = p.vtime ∧ q.vmin = p.vmin := by
  cases v with
  | none => rw [apply_stop_bits_nil] at h; cases h; exact ⟨rfl, rfl, rfl, rfl, rfl, rfl, rfl⟩
  | some s =>
    simp only [apply_stop_bits] at h
    split_ifs at h
    all_goals cases h
    all_goals refine ⟨?_, ?_, ?_, ?_, rfl, rfl, rfl⟩
    all_goals first
      | rw [bclr_preserves _ _ _ (by decide)]
      | rw [set_preserves _ _ _ (by decide)]

/-- The SetParity section touches only the PARENB and PARODD bits. -/
theorem apply_parity_frame (v : Option Int) (p q : Termios)
    (h : apply_parity v p = .ok q) :
    q.c_cflag &&& CSIZE = p.c_cflag &&& CSIZE ∧
    q.c_cflag &&& CSTOPB = p.c_cflag &&& CSTOPB ∧
    q.c_cflag &&& CRTSCTS = p.c_cflag &&& CRTSCTS ∧
    q.c_iflag = p.c_iflag ∧ q.vtime = p.vtime ∧ q.vmin = p.vmin := by
  cases v with
  | none => rw [apply_parity_nil] at h; cases h; exact ⟨rfl, rfl, rfl, rfl, rfl, rfl⟩
  | some pv =>
    simp only [apply_parity] at h
    split_ifs at h
    all_goals cases h
    all_goals refine ⟨?_, ?_, ?_, rfl, rfl, rfl⟩
    all_goals repeat first
      | rw [bclr_preserves _ _ _ (by decide)]
      | rw [set_preserves _ _ _ (by decide)]

/-- The SetFlowControl section touches only CRTSCTS and the soft-flow
input flags. -/
theorem apply_flow_control_frame (b : Build) (v : Option Int) (p q : Termios)
    (h : apply_flow_control b v p = .ok q) :
    q.c_cflag &&& CSIZE = p.c_cflag &&& CSIZE ∧
    q.c_cflag &&& CSTOPB = p.c_cflag &&& CSTOPB ∧
    q.c_cflag &&& PARENB = p.c_cflag &&& PARENB ∧
    q.c_cflag &&& PARODD = p.c_cflag &&& PARODD ∧
    q.vtime = p.vtime ∧ q.vmin = p.vmin := by
  cases v with
  | none =>
    rw [apply_flow_control_nil] at h; cases h; exact ⟨rfl, rfl, rfl, rfl, rfl, rfl⟩
  | some f =>
    simp only [apply_flow_control] at h
    split_ifs at h
    all_goals cases h
    all_goals refine ⟨?_, ?_, ?_, ?_, rfl, rfl⟩
    all_goals first
      | rfl
      | (repeat first
          | rw [bclr_preserves _ _ _ (by decide)]
          | rw [set_preserves _ _ _ (by decide)])

/-- The SetReadTimeout section touches only VTIME and VMIN. -/
theorem apply_read_timeout_frame (v : Option Int) (p q : Termios)
    (h : apply_read_timeout v p = .ok q) :
    q.c_cflag = p.c_cflag ∧ q.c_iflag = p.c_iflag := by
  cases v with
  | none => rw [apply_read_timeout_nil] at h; cases h; exact ⟨rfl, rfl⟩
  | some t =>
    simp only [apply_read_timeout] at h
    split_ifs at h
    all_goals cases h
    all_goals exact ⟨rfl, rfl⟩

theorem lor_right_ne_zero (x a : Nat) (h : a ≠ 0) : x ||| a ≠ 0 := by
  intro hc
  apply h
  apply Nat.eq_of_testBit_eq
  intro i
  have h2 := congrArg (fun n => n.testBit i) hc
  simp only [Nat.testBit_or, Nat.zero_testBit, Bool.or_eq_false_iff] at h2
  simp [Nat.zero_testBit, h2.2]

/-- A supplied valid data-bits value writes the matching CSIZE field. -/
theorem apply_data_bits_effect (d : Int) (p q : Termios)
    (h : apply_data_bits (some d) p = .ok q)
    (hd : d = 5 ∨ d = 6 ∨ d = 7 ∨ d = 8) :
    q.c_cflag &&& CSIZE =
      (if d = 5 then CS5 else if d = 6 then CS6 else if d = 7 then CS7 else CS8) := by
  simp only [apply_data_bits] at h
  rcases hd with h5 | h6 | h7 | h8
  · subst h5; simp only [reduceIte] at h ⊢; cases h
    exact bclr_set_get _ _ _ _ (by decide) (by decide)
  · subst h6; simp only [reduceIte] at h ⊢; cases h
    exact bclr_set_get _ _ _ _ (by decide) (by decide)
  · subst h7; simp only [reduceIte] at h ⊢; cases h
    exact bclr_set_get _ _ _ _ (by decide) (by decide)
  · subst h8; simp only [reduceIte] at h ⊢; cases h
    exact bclr_set_get _ _ _ _ (by decide) (by decide)

/-- A supplied parity NONE clears PARENB. -/
theorem apply_parity_effect_none (p q : Termios)
    (h : apply_parity (some NONE) p = .ok q) : q.c_cflag &&& PARENB = 0 := by
  simp only [apply_parity, reduceIte] at h
  cases h
  exact bclr_clears _ _ _ (by decide)

/-- A supplied parity EVEN sets PARENB and clears PARODD. -/
theorem apply_parity_effect_even (p q : Termios)
    (h : apply_parity (some EVEN) p = .ok q) :
    q.c_cflag &&& PARENB ≠ 0 ∧ q.c_cflag &&& PARODD = 0 := by
  simp only [apply_parity, reduceIte] at h
  cases h
  constructor
  · rw [bclr_preserves _ _ _ (by decide), land_lor_right]
    exact lor_right_ne_zero _ _ (by decide)
  · exact bclr_clears _ _ _ (by decide)

/-- The data-rate section: it writes only the two speed fields of the
in-memory copy, only the Linux serial_struct of the device state, leaves
a pending custom rate that is either the incoming one or positive, and on
a non-Linux build does not touch the device state at all. -/
theorem rate_step_frame (b : Build) (dr : Option Int) (cb0 : Int) (p : Termios)
    (st1 : DeviceState) (p2 : Termios) (cb : Int) (st2 : DeviceState)
    (h : rate_step b dr cb0 p st1 = .ok (p2, cb, st2)) :
    st2.tio = st1.tio ∧ st2.iossSpeed = st1.iossSpeed ∧
    st2.customBaudIV = st1.customBaudIV ∧
    p2.c_cflag = p.c_cflag ∧ p2.c_iflag = p.c_iflag ∧
    p2.vtime = p.vtime ∧ p2.vmin = p.vmin ∧
    (cb = cb0 ∨ 0 < cb) ∧ (¬ b.os = .linux → st2 = st1) := by
  cases dr with
  | none =>
    simp only [rate_step] at h
    cases h
    exact ⟨rfl, rfl, rfl, rfl, rfl, rfl, rfl, Or.inl rfl, fun _ => rfl⟩
  | some r =>
    simp only [rate_step] at h
    by_cases hr : r ≤ 0
    · rw [if_pos hr] at h; cases h
    rw [if_neg hr] at h
    cases hss : standard_speed b r with
    | some spd =>
      rw [hss] at h
      by_cases hl : b.os = .linux
      · simp only [hl, reduceIte] at h
        cases h
        exact ⟨rfl, rfl, rfl, rfl, rfl, rfl, rfl, Or.inl rfl, fun hc => absurd hl hc⟩
      · simp only [hl, reduceIte] at h
        cases h
        exact ⟨rfl, rfl, rfl, rfl, rfl, rfl, rfl, Or.inl rfl, fun _ => rfl⟩
    | none =>
      rw [hss] at h
      by_cases hos : b.os = .linux ∨ b.os = .darwin
      · rw [if_pos hos] at h
        by_cases hhigh : r > 24000000
        · rw [if_pos hhigh] at h; cases h
        rw [if_neg hhigh] at h
        by_cases hl : b.os = .linux
        · simp only [hl, reduceIte] at h
          cases h
          exact ⟨rfl, rfl, rfl, rfl, rfl, rfl, rfl, Or.inr (by omega), fun hc => absurd hl hc⟩
        · simp only [hl, reduceIte] at h
          cases h
          exact ⟨rfl, rfl, rfl, rfl, rfl, rfl, rfl, Or.inr (by omega), fun _ => rfl⟩
      · rw [if_neg hos] at h; cases h

/-- The post-commit step never touches the committed termios. -/
theorem spm_commit_tio (b : Build) (cb : Int) (st3 : DeviceState) :
    (spm_commit b cb st3).st.tio = st3.tio := by
  unfold spm_commit
  split_ifs
  all_goals try rfl
  rename_i hd hl hcb
  cases hsc : set_custom_baud_rate_linux st3.serial cb <;> simp [hsc]

/-- The only error the post-commit step can raise is from the Linux
custom-baud setter, with a pending custom rate that is positive only if
the rate was validated. -/
theorem spm_commit_err (b : Build) (cb : Int) (st3 : DeviceState) (e : SPError)
    (h : (spm_commit b cb st3).err = some e) :
    cb ≠ 0 ∧ b.os = .linux ∧
      ((cb ≤ 0 ∧ e = .argError "invalid baud rate") ∨
        e = .argError "custom baud rate is too high") := by
  unfold spm_commit at h
  split_ifs at h with hd hcb hl hcb
  all_goals simp_all
  cases hsc : set_custom_baud_rate_linux st3.serial cb with
  | ok si => rw [hsc] at h; cases h
  | error e2 =>
    rw [hsc] at h
    cases h
    unfold set_custom_baud_rate_linux at hsc
    split_ifs at hsc with h1 h2
    · cases hsc; exact Or.inl ⟨h1, rfl⟩
    · cases hsc; exact Or.inr rfl

/-- Inversion of a successful fall-through sequence. -/
theorem apply_phases_ok (b : Build) (args : SPArgs) (p1 p6 : Termios)
    (h : apply_phases b args p1 = .ok p6) :
    ∃ p2 p3 p4 p5,
      apply_data_bits (eff_data_bits args) p1 = .ok p2 ∧
      apply_stop_bits (eff_stop_bits args) p2 = .ok p3 ∧
      apply_parity (eff_parity args p3) p3 = .ok p4 ∧
      apply_flow_control b (eff_flow args) p4 = .ok p5 ∧
      apply_read_timeout (eff_read_timeout args) p5 = .ok p6 := by
  unfold apply_phases at h
  cases h1 : apply_data_bits (eff_data_bits args) p1 with
  | error e => rw [h1] at h; cases h
  | ok p2 =>
    rw [h1] at h
    dsimp only at h
    cases h2 : apply_stop_bits (eff_stop_bits args) p2 with
    | error e => rw [h2] at h; cases h
    | ok p3 =>
      rw [h2] at h
      dsimp only at h
      cases h3 : apply_parity (eff_parity args p3) p3 with
      | error e => rw [h3] at h; cases h
      | ok p4 =>
        rw [h3] at h
        dsimp only at h
        cases h4 : apply_flow_control b (eff_flow args) p4 with
        | error e => rw [h4] at h; cases h
        | ok p5 =>
          rw [h4] at h
          dsimp only at h
          exact ⟨p2, p3, p4, p5, rfl, h2, h3, h4, h⟩

/-- A successful configure commits exactly the termios produced by the
rate section and the fall-through sequence. -/
theorem spm_core_ok (b : Build) (args : SPArgs) (cb0 : Int) (params : Termios)
    (st1 : DeviceState) (h : (spm_core b args cb0 params st1).err = none) :
    ∃ p1 cb st2 p6,
      rate_step b (eff_rate args) cb0 params st1 = .ok (p1, cb, st2) ∧
      apply_phases b args p1 = .ok p6 ∧
      (spm_core b args cb0 params st1).st.tio = p6 := by
  unfold spm_core at h ⊢
  cases hrs : rate_step b (eff_rate args) cb0 params st1 with
  | error e => rw [hrs] at h; cases h
  | ok tri =>
    obtain ⟨p1, cb, st2⟩ := tri
    rw [hrs] at h
    dsimp only at h ⊢
    cases hap : apply_phases b args p1 with
    | error e => rw [hap] at h; cases h
    | ok p6 =>
      rw [hap] at h
      dsimp only at h ⊢
      exact ⟨p1, cb, st2, p6, rfl, hap, spm_commit_tio b cb _⟩

/-- If the body raises anything other than the post-commit Linux
"custom baud rate is too high", the kernel termios is untouched
(provided the incoming pending custom rate is 0 on Linux, as in every
call of the body). -/
theorem spm_core_err_tio (b : Build) (args : SPArgs) (cb0 : Int) (params : Termios)
    (st1 : DeviceState) (e : SPError)
    (h : (spm_core b args cb0 params st1).err = some e)
    (hcb0 : b.os = .linux → cb0 = 0)
    (hne : e ≠ .argError "custom baud rate is too high") :
    (spm_core b args cb0 params st1).st.tio = st1.tio := by
  unfold spm_core at h ⊢
  cases hrs : rate_step b (eff_rate args) cb0 params st1 with
  | error er => rfl
  | ok tri =>
    obtain ⟨p1, cb, st2⟩ := tri
    rw [hrs] at h
    dsimp only at h ⊢
    have hframe := rate_step_frame b (eff_rate args) cb0 params st1 p1 cb st2 hrs
    cases hap : apply_phases b args p1 with
    | error e2 =>
      rw [hap] at h
      dsimp only at h ⊢
      exact hframe.1
    | ok p6 =>
      rw [hap] at h
      dsimp only at h ⊢
      obtain ⟨hcbne, hlin, hcase⟩ := spm_commit_err b cb _ e h
      rcases hcase with ⟨hle, _⟩ | heq
      · rcases hframe.2.2.2.2.2.2.2.1 with hcb | hpos
        · exact absurd (hcb.trans (hcb0 hlin)) hcbne
        · omega
      · exact absurd heq hne

/-- Whatever happens, the final termios is either untouched or the one
built by the rate section followed by the fall-through sequence. -/
theorem spm_core_tio_cases (b : Build) (args : SPArgs) (cb0 : Int)
    (params : Termios) (st1 : DeviceState) :
    (spm_core b args cb0 params st1).st.tio = st1.tio ∨
    ∃ p1 cb st2 p6,
      rate_step b (eff_rate args) cb0 params st1 = .ok (p1, cb, st2) ∧
      apply_phases b args p1 = .ok p6 ∧
      (spm_core b args cb0 params st1).st.tio = p6 := by
  unfold spm_core
  cases hrs : rate_step b (eff_rate args) cb0 params st1 with
  | error er => exact Or.inl rfl
  | ok tri =>
    obtain ⟨p1, cb, st2⟩ := tri
    dsimp only
    have hframe := rate_step_frame b (eff_rate args) cb0 params st1 p1 cb st2 hrs
    cases hap : apply_phases b args p1 with
    | error e2 => exact Or.inl hframe.1
    | ok p6 =>
      dsimp only
      exact Or.inr ⟨p1, cb, st2, p6, rfl, hap, spm_commit_tio b cb _⟩

/-- A parity field that is effectively unsupplied is skipped regardless
of the current in-memory copy. -/
theorem eff_parity_none_of_nil (args : SPArgs) (p : Termios)
    (h : parity_nil args = true) : eff_parity args p = none := by
  cases args with
  | hashArg hp =>
    simp only [parity_nil, Option.isNone_iff_eq_none] at h
    simp [eff_parity, h]
  | positional a =>
    simp only [parity_nil, Bool.and_eq_true, decide_eq_true_eq,
      Option.isNone_iff_eq_none] at h
    simp only [eff_parity, if_pos h.1]
    exact h.2

/-! ## Claim theorems -/

/-- C1 (code bug): the bounds check of the integer port selector uses
`num_port > 8` instead of `num_port >= 8`, so selector 8 passes the check
and the 8-entry table is read out of bounds (`.ok none`), while the claim
(and the spec) demand the invalid-port-selector error exactly for
`index < 0 ∨ index ≥ 8`.  Selectors 9 and -1 are rejected as claimed. -/
theorem c1_port_bounds_off_by_one :
    sp_create_select_port 8 = .ok none ∧
    sp_create_select_port 9 = .error (.argError "illegal port number") ∧
    sp_create_select_port (-1) = .error (.argError "illegal port number") ∧
    sp_create_select_port 7 = .ok (some "/dev/ttyS7") ∧
    ports.length = 8 := by
  refine ⟨?_, ?_, ?_, ?_, ?_⟩ <;> rfl

/-- C10: a configure call with zero arguments returns immediately: the
outcome is success and the device/session state is exactly the input
state (the early return precedes every tcgetattr/tcsetattr/ioctl in the
code). -/
theorem c10_zero_args_noop (b : Build) (st : DeviceState) :
    sp_set_modem_params b (.positional []) st = ⟨none, st⟩ := rfl

/-- C2 (counterexample): on Linux, a configure call with a valid standard
baud rate and an invalid parity raises the parity validation error, yet
the kernel serial_struct custom-baud flags and divisor have already been
cleared by the TIOCSSERIAL ioctl issued before the parity check — the
session state at the raise differs from the initial state. -/
theorem c2_counterexample :
    (sp_set_modem_params buildLinux
        (.hashArg ⟨some 9600, none, none, some 99, none, none⟩) dstCust).err
      = some (.argError "unknown parity") ∧
    (sp_set_modem_params buildLinux
        (.hashArg ⟨some 9600, none, none, some 99, none, none⟩) dstCust).st
      ≠ dstCust ∧
    (sp_set_modem_params buildLinux
        (.hashArg ⟨some 9600, none, none, some 99, none, none⟩) dstCust).st.serial.flags
      = 0 ∧
    dstCust.serial.flags = 48 := by
  refine ⟨?_, by decide, ?_, ?_⟩ <;> rfl

/-- C3 (counterexample): after `setReadTimeout(50)` the getter returns
100, not the 0 demanded by the claim's `normalize(50) == 0`. -/
theorem c3_counterexample :
    sp_get_read_timeout (sp_set_read_timeout 50 dstClear) = 100 ∧
    sp_get_read_timeout (sp_set_read_timeout 50 dstClear) ≠ 0 := by
  exact ⟨by rfl, by decide⟩

/-- C3 (amended): the round trip `setReadTimeout(t); getReadTimeout()`
returns `normalize_amended t` for every integer t: negatives read back as
-1, zero as 0, and positive t as `(t+50)/100 % 256 * 100`, which is -1
when the truncated VTIME cell is zero; in particular normalize(50) = 100
(not 0) and normalize(250) = 300, and -1, 0, 100, 1000 are fixed. -/
theorem c3_amended_read_timeout_round_trip :
    (∀ (st : DeviceState) (t : Int),
        sp_get_read_timeout (sp_set_read_timeout t st) = normalize_amended t) ∧
    normalize_amended 50 = 100 ∧ normalize_amended 250 = 300 ∧
    normalize_amended (-1) = -1 ∧ normalize_amended 0 = 0 ∧
    normalize_amended 100 = 100 ∧ normalize_amended 1000 = 1000 := by
  refine ⟨?_, by decide, by decide, by decide, by decide, by decide, by decide⟩
  intro st t
  unfold sp_set_read_timeout sp_get_read_timeout normalize_amended
  by_cases h1 : t < 0
  · simp [h1]
  · by_cases h2 : t = 0
    · simp [h1, h2]
    · by_cases h3 : ((t + 50) / 100).toNat % 256 = 0
      · simp [h1, h2, h3]
      · simp [h1, h2, h3]

/-- C4 (code bug): on Darwin, a configure call that supplies the standard
rate 9600 while the session cache holds custom rate 12345 commits B9600
but then re-issues IOSSIOSPEED with 12345 and re-caches it (the captured
custom rate is never zeroed when a standard rate matches), contradicting
the claim that the cached rate is reset to 0 and not re-applied.  On
Linux the same call does clear the kernel custom-baud flags and divisor
and a later inspect reports 9600, as claimed. -/
theorem c4_darwin_standard_rate_reapplies_custom :
    ((sp_set_modem_params buildDarwin
        (.hashArg ⟨some 9600, none, none, none, none, none⟩) dstDarwinCust).err
      = none ∧
     (sp_set_modem_params buildDarwin
        (.hashArg ⟨some 9600, none, none, none, none, none⟩) dstDarwinCust).st.customBaudIV
      = some 12345 ∧
     (sp_set_modem_params buildDarwin
        (.hashArg ⟨some 9600, none, none, none, none, none⟩) dstDarwinCust).st.iossSpeed
      = 12345 ∧
     (sp_set_modem_params buildDarwin
        (.hashArg ⟨some 9600, none, none, none, none, none⟩) dstDarwinCust).st.tio.ospeed
      = Speed.b9600) ∧
    ((sp_set_modem_params buildLinux
        (.hashArg ⟨some 9600, none, none, none, none, none⟩) dstCust).err = none ∧
     (sp_set_modem_params buildLinux
        (.hashArg ⟨some 9600, none, none, none, none, none⟩) dstCust).st.serial.flags
        &&& ASYNC_SPD_CUST = 0 ∧
     (sp_set_modem_params buildLinux
        (.hashArg ⟨some 9600, none, none, none, none, none⟩) dstCust).st.serial.custom_divisor
      = 0 ∧
     (get_modem_params buildLinux true
        (sp_set_modem_params buildLinux
          (.hashArg ⟨some 9600, none, none, none, none, none⟩) dstCust).st).data_rate
      = 9600) := by
  exact ⟨⟨rfl, rfl, rfl, rfl⟩, ⟨rfl, by decide, rfl, rfl⟩⟩

/-- C5 (counterexample): a positional configure call `[9600]` supplies no
data-bits value, yet on a descriptor configured with CS7 the call
succeeds and the CSIZE field afterwards is CS8 (the omitted positional
argument defaults to 8 rather than leaving the bits untouched). -/
theorem c5_counterexample :
    (sp_set_modem_params buildLinux (.positional [some 9600]) dstClear).err = none ∧
    (sp_set_modem_params buildLinux
        (.positional [some 9600]) dstClear).st.tio.c_cflag &&& CSIZE = CS8 ∧
    dstClear.tio.c_cflag &&& CSIZE = CS7 ∧
    CS7 ≠ CS8 := by
  exact ⟨by rfl, by decide, by decide, by decide⟩

/-- C8: the Linux custom-baud getter is total: it returns 0 when the
TIOCGSERIAL ioctl fails (`none` input), when ASYNC_SPD_CUST is clear, or
when the stored divisor is not positive, and `baud_base / custom_divisor`
otherwise; consequently on Linux an inspect whose primary speed field
decodes to no standard constant reports data_rate 0 instead of failing
whenever no recoverable custom rate exists. -/
theorem c8_custom_baud_getter_total :
    (get_custom_baud_rate none = 0) ∧
    (∀ si : SerialStruct, si.flags &&& ASYNC_SPD_CUST = 0 →
        get_custom_baud_rate (some si) = 0) ∧
    (∀ si : SerialStruct, si.custom_divisor ≤ 0 →
        get_custom_baud_rate (some si) = 0) ∧
    (∀ si : SerialStruct, si.flags &&& ASYNC_SPD_CUST ≠ 0 → 0 < si.custom_divisor →
        get_custom_baud_rate (some si) = si.baud_base / si.custom_divisor) ∧
    (∀ (b : Build) (gOk : Bool) (st : DeviceState), b.os = .linux →
        decode_speed b st.tio.ospeed = none →
        (gOk = false ∨ st.serial.flags &&& ASYNC_SPD_CUST = 0 ∨
          st.serial.custom_divisor ≤ 0) →
        (get_modem_params b gOk st).data_rate = 0) := by
  refine ⟨rfl, ?_, ?_, ?_, ?_⟩
  · intro si h
    simp [get_custom_baud_rate, h]
  · intro si h
    simp [get_custom_baud_rate]
    intro _
    omega
  · intro si h1 h2
    simp [get_custom_baud_rate, h1, h2]
  · intro b gOk st hos hdec hcase
    unfold get_modem_params
    dsimp only
    rw [hdec, hos]
    dsimp only
    rcases hcase with hg | hflag | hdiv
    · rw [hg]
      simp [get_custom_baud_rate]
    · cases gOk
      · simp [get_custom_baud_rate]
      · simp [get_custom_baud_rate, hflag]
    · cases gOk
      · simp [get_custom_baud_rate]
      · simp only [reduceIte]
        simp [get_custom_baud_rate]
        intro _
        omega

/-- C8 witness: each guarded case of the theorem applied at a concrete
input. -/
theorem c8_witness :
    get_custom_baud_rate (some ⟨0, 24, 115200⟩) = 0 ∧
    get_custom_baud_rate (some ⟨48, 0, 115200⟩) = 0 ∧
    get_custom_baud_rate (some ⟨48, 24, 115200⟩) = 4800 ∧
    (get_modem_params buildLinux true
        ⟨⟨0, 32, .b9600, .b76800, 0, 0⟩, serialClear, 0, none⟩).data_rate = 0 :=
  ⟨c8_custom_baud_getter_total.2.1 ⟨0, 24, 115200⟩ (by decide),
   c8_custom_baud_getter_total.2.2.1 ⟨48, 0, 115200⟩ (by decide),
   (c8_custom_baud_getter_total.2.2.2.1 ⟨48, 24, 115200⟩ (by decide) (by decide)).trans
     (by decide),
   c8_custom_baud_getter_total.2.2.2.2 buildLinux true
     ⟨⟨0, 32, .b9600, .b76800, 0, 0⟩, serialClear, 0, none⟩ rfl rfl
     (Or.inr (Or.inl (by decide)))⟩

/-- C9: the data-bits decode of inspect is exactly the CSIZE switch: a
scrutinee matching none of CS5, CS6, CS7, CS8 reports 0 (outside the
documented set \{5,6,7,8\}), and each of the four constants reports its
corresponding value. -/
theorem c9_data_bits_decode :
    (∀ (b : Build) (gOk : Bool) (st : DeviceState),
        (get_modem_params b gOk st).data_bits
          = decode_data_bits (st.tio.c_cflag &&& CSIZE)) ∧
    (∀ m : Nat, ¬ (m = CS5 ∨ m = CS6 ∨ m = CS7 ∨ m = CS8) →
        decode_data_bits m = 0) ∧
    decode_data_bits CS5 = 5 ∧ decode_data_bits CS6 = 6 ∧
    decode_data_bits CS7 = 7 ∧ decode_data_bits CS8 = 8 := by
  refine ⟨fun b gOk st => rfl, ?_, rfl, rfl, rfl, rfl⟩
  intro m h
  push_neg at h
  simp [decode_data_bits, h.1, h.2.1, h.2.2.1, h.2.2.2]

/-- C9 witness: a scrutinee outside the four constants decodes to 0. -/
theorem c9_witness : decode_data_bits 1 = 0 :=
  c9_data_bits_decode.2.1 1 (by decide)

/-- C2 (amended): a configure call that raises any error other than the
post-commit Linux check "custom baud rate is too high" leaves the kernel
termios untouched — validation failures abort before the tcsetattr
commit.  (The custom-baud side-channel state is not protected: the Darwin
cache is reset before any validation and the Linux serial_struct clear
happens after baud validation but before later field validation, as the
counterexample shows.) -/
theorem c2_amended_validation_preserves_termios (b : Build) (args : SPArgs)
    (st0 : DeviceState) (e : SPError)
    (h : (sp_set_modem_params b args st0).err = some e)
    (hne : e ≠ .argError "custom baud rate is too high") :
    (sp_set_modem_params b args st0).st.tio = st0.tio := by
  have hcb0 : ∀ st0' : DeviceState, b.os = .linux →
      (if b.os = .darwin then get_custom_baud_rate_darwin st0' else 0) = 0 := by
    intro st0' hl
    rw [hl]
    rfl
  have hst1 : (if b.os = .darwin then { st0 with customBaudIV := some 0 } else st0).tio
      = st0.tio := by
    by_cases hd : b.os = .darwin <;> simp [hd]
  cases args with
  | hashArg hp =>
    unfold sp_set_modem_params at h ⊢
    exact (spm_core_err_tio _ _ _ _ _ e h (hcb0 st0) hne).trans hst1
  | positional a =>
    cases a with
    | nil => exact absurd h (by simp [sp_set_modem_params])
    | cons x xs =>
      unfold sp_set_modem_params at h ⊢
      exact (spm_core_err_tio _ _ _ _ _ e h (hcb0 st0) hne).trans hst1

/-- C2 witness: a Linux call with invalid parity raises and the termios
is unchanged. -/
theorem c2_amended_witness :
    (sp_set_modem_params buildLinux
        (.hashArg ⟨none, none, none, some 99, none, none⟩) dstClear).st.tio
      = dstClear.tio :=
  c2_amended_validation_preserves_termios buildLinux
    (.hashArg ⟨none, none, none, some 99, none, none⟩) dstClear
    (.argError "unknown parity") (by decide) (by decide)

/-- The final termios of a configure call is either the initial one, or
the output of the fall-through sequence started from a copy whose c_cflag
and c_iflag equal the initial ones. -/
theorem spm_tio_cases (b : Build) (args : SPArgs) (st0 : DeviceState) :
    (sp_set_modem_params b args st0).st.tio = st0.tio ∨
    ∃ p1 p6, apply_phases b args p1 = .ok p6 ∧
      (sp_set_modem_params b args st0).st.tio = p6 ∧
      p1.c_cflag = st0.tio.c_cflag ∧ p1.c_iflag = st0.tio.c_iflag := by
  have core : ∀ args' : SPArgs,
      (spm_core b args'
          (if b.os = .darwin then get_custom_baud_rate_darwin st0 else 0)
          (if b.os = .darwin then { st0.tio with ispeed := .b9600, ospeed := .b9600 }
           else st0.tio)
          (if b.os = .darwin then { st0 with customBaudIV := some 0 } else st0)).st.tio
        = st0.tio ∨
      ∃ p1 p6, apply_phases b args' p1 = .ok p6 ∧
        (spm_core b args'
            (if b.os = .darwin then get_custom_baud_rate_darwin st0 else 0)
            (if b.os = .darwin then { st0.tio with ispeed := .b9600, ospeed := .b9600 }
             else st0.tio)
            (if b.os = .darwin then { st0 with customBaudIV := some 0 } else st0)).st.tio
          = p6 ∧
        p1.c_cflag = st0.tio.c_cflag ∧ p1.c_iflag = st0.tio.c_iflag := by
    intro args'
    rcases spm_core_tio_cases b args' _ _ _ with heq | ⟨p1, cb, st2, p6, hrs, hap, htio⟩
    · left
      refine heq.trans ?_
      by_cases hd : b.os = .darwin <;> simp [hd]
    · right
      have hframe := rate_step_frame b (eff_rate args') _ _ _ p1 cb st2 hrs
      refine ⟨p1, p6, hap, htio, ?_, ?_⟩
      · rw [hframe.2.2.2.1]
        by_cases hd : b.os = .darwin <;> simp [hd]
      · rw [hframe.2.2.2.2.1]
        by_cases hd : b.os = .darwin <;> simp [hd]
  cases args with
  | hashArg hp => exact core (.hashArg hp)
  | positional a =>
    cases a with
    | nil => exact Or.inl rfl
    | cons x xs => exact core (.positional (x :: xs))

/-- C5 (amended): for each of data bits, stop bits, parity, and flow
control, if the field is effectively unsupplied — a missing hash entry,
an explicit positional nil, or (for flow control only) an absent trailing
positional argument — then the corresponding bits of the descriptor's
line-control state after the call equal their value before the call.
(For omitted trailing positional arguments, data bits, stop bits, and
parity are not left untouched: they default to 8, 1, and a parity derived
from the post-update data bits, as the counterexample shows.) -/
theorem c5_amended_unsupplied_fields_untouched (b : Build) (args : SPArgs)
    (st0 : DeviceState) :
    (eff_data_bits args = none →
      (sp_set_modem_params b args st0).st.tio.c_cflag &&& CSIZE
        = st0.tio.c_cflag &&& CSIZE) ∧
    (eff_stop_bits args = none →
      (sp_set_modem_params b args st0).st.tio.c_cflag &&& CSTOPB
        = st0.tio.c_cflag &&& CSTOPB) ∧
    (parity_nil args = true →
      (sp_set_modem_params b args st0).st.tio.c_cflag &&& PARENB
        = st0.tio.c_cflag &&& PARENB ∧
      (sp_set_modem_params b args st0).st.tio.c_cflag &&& PARODD
        = st0.tio.c_cflag &&& PARODD) ∧
    (eff_flow args = none →
      (sp_set_modem_params b args st0).st.tio.c_cflag &&& CRTSCTS
        = st0.tio.c_cflag &&& CRTSCTS ∧
      (sp_set_modem_params b args st0).st.tio.c_iflag = st0.tio.c_iflag) := by
  rcases spm_tio_cases b args st0 with heq | ⟨p1, p6, hap, htio, hpc, hpi⟩
  · rw [heq]
    exact ⟨fun _ => rfl, fun _ => rfl, fun _ => ⟨rfl, rfl⟩, fun _ => ⟨rfl, rfl⟩⟩
  · obtain ⟨p2, p3, p4, p5, h1, h2, h3, h4, h5⟩ := apply_phases_ok b args p1 p6 hap
    have f2 := apply_stop_bits_frame _ _ _ h2
    have f3 := apply_parity_frame _ _ _ h3
    have f4 := apply_flow_control_frame _ _ _ _ h4
    have f5 := apply_read_timeout_frame _ _ _ h5
    rw [htio]
    refine ⟨?_, ?_, ?_, ?_⟩
    · intro hnil
      rw [hnil, apply_data_bits_nil] at h1
      injection h1 with h1e
      rw [f5.1, f4.1, f3.1, f2.1, ← h1e, hpc]
    · intro hnil
      have f1 := apply_data_bits_frame _ _ _ h1
      rw [hnil, apply_stop_bits_nil] at h2
      injection h2 with h2e
      rw [f5.1, f4.2.1, f3.2.1, ← h2e, f1.1, hpc]
    · intro hnil
      have f1 := apply_data_bits_frame _ _ _ h1
      rw [eff_parity_none_of_nil args p3 hnil, apply_parity_nil] at h3
      injection h3 with h3e
      constructor
      · rw [f5.1, f4.2.2.1, ← h3e, f2.2.1, f1.2.1, hpc]
      · rw [f5.1, f4.2.2.2.1, ← h3e, f2.2.2.1, f1.2.2.1, hpc]
    · intro hnil
      have f1 := apply_data_bits_frame _ _ _ h1
      rw [hnil, apply_flow_control_nil] at h4
      injection h4 with h4e
      constructor
      · rw [f5.1, ← h4e, f3.2.2.1, f2.2.2.2.1, f1.2.2.2.1, hpc]
      · rw [f5.2, ← h4e, f3.2.2.2.1, f2.2.2.2.2.1, f1.2.2.2.2.1, hpi]

/-- C5 witness: a hash call supplying only the baud rate leaves all four
optional framing fields bit-identical. -/
theorem c5_amended_witness :
    (sp_set_modem_params buildLinux
        (.hashArg ⟨some 9600, none, none, none, none, none⟩) dstClear).st.tio.c_cflag
        &&& CSIZE = dstClear.tio.c_cflag &&& CSIZE ∧
    (sp_set_modem_params buildLinux
        (.hashArg ⟨some 9600, none, none, none, none, none⟩) dstClear).st.tio.c_cflag
        &&& CSTOPB = dstClear.tio.c_cflag &&& CSTOPB ∧
    (sp_set_modem_params buildLinux
        (.hashArg ⟨some 9600, none, none, none, none, none⟩) dstClear).st.tio.c_cflag
        &&& PARENB = dstClear.tio.c_cflag &&& PARENB ∧
    (sp_set_modem_params buildLinux
        (.hashArg ⟨some 9600, none, none, none, none, none⟩) dstClear).st.tio.c_iflag
      = dstClear.tio.c_iflag :=
  ⟨(c5_amended_unsupplied_fields_untouched buildLinux
      (.hashArg ⟨some 9600, none, none, none, none, none⟩) dstClear).1 rfl,
   (c5_amended_unsupplied_fields_untouched buildLinux
      (.hashArg ⟨some 9600, none, none, none, none, none⟩) dstClear).2.1 rfl,
   ((c5_amended_unsupplied_fields_untouched buildLinux
      (.hashArg ⟨some 9600, none, none, none, none, none⟩) dstClear).2.2.1 rfl).1,
   ((c5_amended_unsupplied_fields_untouched buildLinux
      (.hashArg ⟨some 9600, none, none, none, none, none⟩) dstClear).2.2.2 rfl).2⟩

/-! ## Totality of the validation sections on valid inputs -/

theorem apply_data_bits_total (v : Option Int) (p : Termios)
    (hv : ∀ d, v = some d → d = 5 ∨ d = 6 ∨ d = 7 ∨ d = 8) :
    ∃ q, apply_data_bits v p = .ok q := by
  cases v with
  | none => exact ⟨p, rfl⟩
  | some d =>
    rcases hv d rfl with h | h | h | h <;> subst h <;> exact ⟨_, rfl⟩

theorem apply_stop_bits_total (v : Option Int) (p : Termios)
    (hv : ∀ s, v = some s → s = 1 ∨ s = 2) :
    ∃ q, apply_stop_bits v p = .ok q := by
  cases v with
  | none => exact ⟨p, rfl⟩
  | some s =>
    rcases hv s rfl with h | h <;> subst h <;> exact ⟨_, rfl⟩

theorem apply_parity_total (v : Option Int) (p : Termios)
    (hv : ∀ pv, v = some pv → pv = EVEN ∨ pv = ODD ∨ pv = NONE) :
    ∃ q, apply_parity v p = .ok q := by
  cases v with
  | none => exact ⟨p, rfl⟩
  | some pv =>
    rcases hv pv rfl with h | h | h <;> subst h <;> exact ⟨_, rfl⟩

/-- If the supplied parity slot is valid, every effective parity value is
valid (the positional default is NONE or EVEN, always valid). -/
theorem eff_parity_valid (args : SPArgs) (p3 : Termios)
    (hpar : ∀ pv, eff_parity_slot args = some pv →
      pv = EVEN ∨ pv = ODD ∨ pv = NONE) :
    ∀ pv, eff_parity args p3 = some pv → pv = EVEN ∨ pv = ODD ∨ pv = NONE := by
  intro pv h
  cases args with
  | hashArg hp => exact hpar pv h
  | positional a =>
    simp only [eff_parity] at h
    by_cases h4 : a.length ≥ 4
    · rw [if_pos h4] at h
      apply hpar
      simp only [eff_parity_slot, if_pos h4]
      exact h
    · rw [if_neg h4] at h
      injection h with he
      by_cases hc : p3.c_cflag &&& CSIZE = CS8
      · rw [if_pos hc] at he
        exact Or.inr (Or.inr he.symm)
      · rw [if_neg hc] at he
        exact Or.inl he.symm

theorem rate_step_total (b : Build) (dr : Option Int) (cb0 : Int) (p : Termios)
    (st1 : DeviceState)
    (hv : ∀ r, dr = some r → 0 < r ∧ (standard_speed b r).isSome) :
    ∃ p2 cb st2, rate_step b dr cb0 p st1 = .ok (p2, cb, st2) := by
  cases dr with
  | none => exact ⟨p, cb0, st1, rfl⟩
  | some r =>
    obtain ⟨hr, hss⟩ := hv r rfl
    obtain ⟨spd, hspd⟩ := Option.isSome_iff_exists.mp hss
    refine ⟨{ p with ispeed := spd, ospeed := spd }, cb0,
      (if b.os = .linux then
        { st1 with serial := clear_custom_baud_rate_linux st1.serial } else st1), ?_⟩
    simp only [rate_step, if_neg (by omega : ¬ r ≤ 0), hspd]

/-- On a build without CRTSCTS, a supplied flow value with the HARD bit
raises the hardware-unsupported IOError. -/
theorem apply_flow_control_hard_err (b : Build) (fc : Int) (p : Termios)
    (hh : b.hasHardFlow = false)
    (hfcH : fc = HARD ∨ fc = Int.lor HARD SOFT) :
    apply_flow_control b (some fc) p
      = .error (.ioError "Hardware flow control not supported") := by
  rcases hfcH with rfl | rfl
  all_goals simp only [apply_flow_control]
  all_goals rw [if_neg (by decide), if_pos ⟨by simp [hh], by decide⟩]

/-- On a build without CRTSCTS, the whole fall-through sequence fails
with the hardware-unsupported IOError whenever a HARD-bit flow value is
supplied and the earlier fields are valid or absent. -/
theorem apply_phases_hard_err (b : Build) (args : SPArgs) (p1 : Termios) (fc : Int)
    (hh : b.hasHardFlow = false)
    (hfc : eff_flow args = some fc)
    (hfcH : fc = HARD ∨ fc = Int.lor HARD SOFT)
    (hdb : ∀ d, eff_data_bits args = some d → d = 5 ∨ d = 6 ∨ d = 7 ∨ d = 8)
    (hsb : ∀ s, eff_stop_bits args = some s → s = 1 ∨ s = 2)
    (hpar : ∀ pv, eff_parity_slot args = some pv →
      pv = EVEN ∨ pv = ODD ∨ pv = NONE) :
    apply_phases b args p1
      = .error (.ioError "Hardware flow control not supported") := by
  obtain ⟨p2, h1⟩ := apply_data_bits_total (eff_data_bits args) p1 hdb
  obtain ⟨p3, h2⟩ := apply_stop_bits_total (eff_stop_bits args) p2 hsb
  obtain ⟨p4, h3⟩ :=
    apply_parity_total (eff_parity args p3) p3 (eff_parity_valid args p3 hpar)
  unfold apply_phases
  rw [h1]
  dsimp only
  rw [h2]
  dsimp only
  rw [h3]
  dsimp only
  rw [hfc, apply_flow_control_hard_err b fc p4 hh hfcH]

/-- C7: on a build lacking hardware flow-control support (CRTSCTS
undefined, hence not Linux or Darwin, whose headers define it), any
configure call that effectively supplies a flow-control value with the
HARD bit set — with the other supplied fields valid — and any
setFlowControl call with such a value, raise the unsupported-capability
IOError and leave the device and session state exactly unchanged. -/
theorem c7_hard_flow_unsupported (b : Build) (args : SPArgs) (st : DeviceState)
    (fc : Int)
    (hwf : b.os = .linux ∨ b.os = .darwin → b.hasHardFlow = true)
    (hh : b.hasHardFlow = false)
    (hfc : eff_flow args = some fc)
    (hfcH : fc = HARD ∨ fc = Int.lor HARD SOFT)
    (hrate : ∀ r, eff_rate args = some r → 0 < r ∧ (standard_speed b r).isSome)
    (hdb : ∀ d, eff_data_bits args = some d → d = 5 ∨ d = 6 ∨ d = 7 ∨ d = 8)
    (hsb : ∀ s, eff_stop_bits args = some s → s = 1 ∨ s = 2)
    (hpar : ∀ pv, eff_parity_slot args = some pv →
      pv = EVEN ∨ pv = ODD ∨ pv = NONE) :
    sp_set_modem_params b args st
      = ⟨some (.ioError "Hardware flow control not supported"), st⟩ ∧
    sp_set_flow_control b fc st
      = ⟨some (.ioError "Hardware flow control not supported"), st⟩ := by
  have hos : b.os = .other := by
    cases hbo : b.os
    · exact absurd (hwf (Or.inl hbo)) (by simp [hh])
    · exact absurd (hwf (Or.inr hbo)) (by simp [hh])
    · rfl
  have hnd : ¬ b.os = .darwin := by simp [hos]
  have hnl : ¬ b.os = .linux := by simp [hos]
  have hcore : spm_core b args 0 st.tio st
      = ⟨some (.ioError "Hardware flow control not supported"), st⟩ := by
    obtain ⟨p2, cb, st2, hrs⟩ := rate_step_total b (eff_rate args) 0 st.tio st hrate
    have hfr := rate_step_frame b (eff_rate args) 0 st.tio st p2 cb st2 hrs
    have hst2 : st2 = st := hfr.2.2.2.2.2.2.2.2 hnl
    unfold spm_core
    rw [hrs]
    dsimp only
    rw [apply_phases_hard_err b args p2 fc hh hfc hfcH hdb hsb hpar]
    dsimp only
    rw [hst2]
  constructor
  · cases args with
    | hashArg hp =>
      unfold sp_set_modem_params
      dsimp only
      rw [if_neg hnd, if_neg hnd, if_neg hnd]
      exact hcore
    | positional a =>
      cases a with
      | nil => exact absurd hfc (by simp [eff_flow])
      | cons x xs =>
        unfold sp_set_modem_params
        dsimp only
        rw [if_neg hnd, if_neg hnd, if_neg hnd]
        exact hcore
  · unfold sp_set_flow_control
    rw [apply_flow_control_hard_err b fc st.tio hh hfcH]

/-- C7 witness: a CRTSCTS-less build, a hash configure call requesting
flow HARD, and a standalone setFlowControl HARD both fail with the
IOError and leave the state unchanged. -/
theorem c7_witness :
    sp_set_modem_params buildNoHard
        (.hashArg ⟨some 9600, none, none, none, some 2, none⟩) dstClear
      = ⟨some (.ioError "Hardware flow control not supported"), dstClear⟩ ∧
    sp_set_flow_control buildNoHard 2 dstClear
      = ⟨some (.ioError "Hardware flow control not supported"), dstClear⟩ :=
  c7_hard_flow_unsupported buildNoHard
    (.hashArg ⟨some 9600, none, none, none, some 2, none⟩) dstClear 2
    (by decide) rfl rfl (Or.inl rfl)
    (by intro r hr; cases hr; exact ⟨by decide, by decide⟩)
    (by intro d hd; cases hd) (by intro s hs; cases hs) (by intro pv hp; cases hp)

/-- C6: a successful positional configure call of two or three arguments
that supplies a data-bits value and therefore no parity slot gets the
defaulted parity computed from the post-update data-bits value: the
decoded parity afterwards is NONE when the supplied data bits are 8 and
EVEN otherwise. -/
theorem c6_positional_parity_default (b : Build) (st0 : DeviceState) (gOk : Bool)
    (a : List (Option Int)) (d : Int)
    (hlen : a.length = 2 ∨ a.length = 3)
    (hd1 : a.getD 1 none = some d)
    (hdv : d = 5 ∨ d = 6 ∨ d = 7 ∨ d = 8)
    (hok : (sp_set_modem_params b (.positional a) st0).err = none) :
    (get_modem_params b gOk (sp_set_modem_params b (.positional a) st0).st).parity
      = if d = 8 then NONE else EVEN := by
  cases a with
  | nil => simp at hlen
  | cons x xs =>
    unfold sp_set_modem_params at hok ⊢
    obtain ⟨p1, cb, st2, p6, hrs, hap, htio⟩ :=
      spm_core_ok b (.positional (x :: xs)) _ _ _ hok
    obtain ⟨p2, p3, p4, p5, h1, h2, h3, h4, h5⟩ :=
      apply_phases_ok b (.positional (x :: xs)) p1 p6 hap
    have hlen2 : (x :: xs).length ≥ 2 := by rcases hlen with h | h <;> omega
    have hlen4 : ¬ (x :: xs).length ≥ 4 := by rcases hlen with h | h <;> omega
    have hed : eff_data_bits (.positional (x :: xs)) = some d := by
      simp only [eff_data_bits, if_pos hlen2]
      exact hd1
    rw [hed] at h1
    have e1 := apply_data_bits_effect d p1 p2 h1 hdv
    have f2 := apply_stop_bits_frame _ _ _ h2
    have hcs : p3.c_cflag &&& CSIZE
        = (if d = 5 then CS5 else if d = 6 then CS6 else if d = 7 then CS7 else CS8) := by
      rw [f2.1, e1]
    have heff : eff_parity (.positional (x :: xs)) p3
        = some (if p3.c_cflag &&& CSIZE = CS8 then NONE else EVEN) := by
      simp only [eff_parity, if_neg hlen4]
    rw [heff] at h3
    have f4 := apply_flow_control_frame _ _ _ _ h4
    have f5 := apply_read_timeout_frame _ _ _ h5
    unfold get_modem_params
    dsimp only
    rw [htio]
    rcases hdv with hdd | hdd | hdd | hdd <;> subst hdd
    · have hcne : ¬ p3.c_cflag &&& CSIZE = CS8 := by rw [hcs]; decide
      rw [if_neg hcne] at h3
      have e3 := apply_parity_effect_even p3 p4 h3
      have hP : ¬ p6.c_cflag &&& PARENB = 0 := by
        rw [f5.1, f4.2.2.1]
        exact e3.1
      have hO : ¬ p6.c_cflag &&& PARODD ≠ 0 := by
        rw [f5.1, f4.2.2.2.1, e3.2]
        decide
      rw [if_neg hP, if_neg hO, if_neg (by decide : ¬ (5 : Int) = 8)]
    · have hcne : ¬ p3.c_cflag &&& CSIZE = CS8 := by rw [hcs]; decide
      rw [if_neg hcne] at h3
      have e3 := apply_parity_effect_even p3 p4 h3
      have hP : ¬ p6.c_cflag &&& PARENB = 0 := by
        rw [f5.1, f4.2.2.1]
        exact e3.1
      have hO : ¬ p6.c_cflag &&& PARODD ≠ 0 := by
        rw [f5.1, f4.2.2.2.1, e3.2]
        decide
      rw [if_neg hP, if_neg hO, if_neg (by decide : ¬ (6 : Int) = 8)]
    · have hcne : ¬ p3.c_cflag &&& CSIZE = CS8 := by rw [hcs]; decide
      rw [if_neg hcne] at h3
      have e3 := apply_parity_effect_even p3 p4 h3
      have hP : ¬ p6.c_cflag &&& PARENB = 0 := by
        rw [f5.1, f4.2.2.1]
        exact e3.1
      have hO : ¬ p6.c_cflag &&& PARODD ≠ 0 := by
        rw [f5.1, f4.2.2.2.1, e3.2]
        decide
      rw [if_neg hP, if_neg hO, if_neg (by decide : ¬ (7 : Int) = 8)]
    · have hc8 : p3.c_cflag &&& CSIZE = CS8 := by rw [hcs]; decide
      rw [if_pos hc8] at h3
      have e3 := apply_parity_effect_none p3 p4 h3
      have hP : p6.c_cflag &&& PARENB = 0 := by
        rw [f5.1, f4.2.2.1, e3]
      rw [if_pos hP, if_pos (rfl : (8 : Int) = 8)]

/-- C6 witness: `[9600, 7]` yields parity EVEN and `[9600, 8]` yields
parity NONE. -/
theorem c6_witness :
    (get_modem_params buildLinux true
        (sp_set_modem_params buildLinux
          (.positional [some 9600, some 7]) dstClear).st).parity = EVEN ∧
    (get_modem_params buildLinux true
        (sp_set_modem_params buildLinux
          (.positional [some 9600, some 8]) dstClear).st).parity = NONE :=
  ⟨(c6_positional_parity_default buildLinux dstClear true [some 9600, some 7] 7
      (Or.inl rfl) rfl (Or.inr (Or.inr (Or.inl rfl))) (by decide)).trans (by decide),
   (c6_positional_parity_default buildLinux dstClear true [some 9600, some 8] 8
      (Or.inl rfl) rfl (Or.inr (Or.inr (Or.inr rfl))) (by decide)).trans (by decide)⟩

end SerialPort
